import Mathlib

/-!
Shallow embedding of the fixture generator script
generate_complex_template.py: a deterministic builder of one richly
formatted document (headings plus eight pattern paragraphs of styled
runs), modelled after the python-docx data it constructs.
-/

namespace GenerateComplexTemplate

/-- An RGB triple with three 8-bit channel values. -/
structure RGBColor where
  r : Nat
  g : Nat
  b : Nat
deriving DecidableEq, Repr

/-- Paragraph alignment enumeration, mirroring WD_ALIGN_PARAGRAPH. -/
inductive WD_ALIGN_PARAGRAPH where
  | LEFT : WD_ALIGN_PARAGRAPH
  | CENTER : WD_ALIGN_PARAGRAPH
  | RIGHT : WD_ALIGN_PARAGRAPH
deriving DecidableEq, Repr

/-- The atomic styled text unit. Each attribute field is an Option to
mirror the authoring library, where an attribute that is never assigned
stays at None (inherited), while an assignment records an explicit
value. The source script sets fields by sequential attribute
assignment; the record captures the final state of each run. -/
structure Run where
  text : String
  color : Option RGBColor := none
  bold : Option Bool := none
  italic : Option Bool := none
  underline : Option Bool := none
  size : Option Nat := none
deriving DecidableEq, Repr

/-- A block is a heading (with a level) or a body paragraph. -/
inductive BlockKind where
  | heading : Nat → BlockKind
  | paragraph : BlockKind
deriving DecidableEq, Repr

/-- A document block: kind, optional alignment (None until assigned, as
in the library), and its ordered runs. -/
structure Block where
  kind : BlockKind
  alignment : Option WD_ALIGN_PARAGRAPH := none
  runs : List Run
deriving DecidableEq, Repr

/-- Assigning the alignment attribute of a block, as the script does
with statements of the form para.alignment = WD_ALIGN_PARAGRAPH.X. -/
def setAlignment (b : Block) (a : WD_ALIGN_PARAGRAPH) : Block :=
  { b with alignment := some a }

/-- Section 1 of the script: the level-0 title heading run, with its
color assigned explicitly. -/
def title_run : Run :=
  { text := "复杂格式测试文档", color := some ⟨0x1a, 0x1a, 0x1a⟩ }

/-- The title heading block, centered. -/
def title : Block :=
  { kind := BlockKind.heading 0, alignment := some WD_ALIGN_PARAGRAPH.CENTER,
    runs := [title_run] }

/-- Section 2: the level-1 subtitle heading run, red. -/
def subtitle_run : Run :=
  { text := "格式保留测试", color := some ⟨0xFF, 0x00, 0x00⟩ }

/-- The subtitle heading block, centered. -/
def subtitle : Block :=
  { kind := BlockKind.heading 1, alignment := some WD_ALIGN_PARAGRAPH.CENTER,
    runs := [subtitle_run] }

/-- Section 3, multi-color sentence paragraph: runs run1 through run7. -/
def run1 : Run := { text := "这是", color := some ⟨0x00, 0x00, 0x00⟩ }

def run2 : Run :=
  { text := "蓝色", color := some ⟨0x00, 0x00, 0xFF⟩, bold := some true }

def run3 : Run := { text := "的文字，", color := some ⟨0x00, 0x00, 0x00⟩ }

def run4 : Run :=
  { text := "绿色", color := some ⟨0x00, 0xFF, 0x00⟩, italic := some true }

def run5 : Run := { text := "的文字，", color := some ⟨0x00, 0x00, 0x00⟩ }

def run6 : Run :=
  { text := "红色", color := some ⟨0xFF, 0x00, 0x00⟩, bold := some true,
    italic := some true }

def run7 : Run := { text := "的文字。", color := some ⟨0x00, 0x00, 0x00⟩ }

/-- The multi-color sentence paragraph. -/
def para1 : Block :=
  { kind := BlockKind.paragraph, alignment := some WD_ALIGN_PARAGRAPH.LEFT,
    runs := [run1, run2, run3, run4, run5, run6, run7] }

/-- Section 4: the fixed source string of the character-cycling
paragraph. -/
def text : String := "彩虹文字："

/-- The rainbow palette of section 4, in source order: red, orange,
yellow, green, blue, indigo, violet. -/
def colors : List RGBColor :=
  [⟨0xFF, 0x00, 0x00⟩, ⟨0xFF, 0x7F, 0x00⟩, ⟨0xFF, 0xFF, 0x00⟩,
   ⟨0x00, 0xFF, 0x00⟩, ⟨0x00, 0x00, 0xFF⟩, ⟨0x4B, 0x00, 0x82⟩,
   ⟨0x94, 0x00, 0xD3⟩]

/-- One iteration of the section-4 loop: the run for character char at
index i of a string of length n. The color is assigned from the palette
at position i modulo the palette length unless i is the final index, in
which case the run keeps the default color. -/
def para2Run (n i : Nat) (char : Char) : Run :=
  if i < n - 1 then
    { text := char.toString,
      color := some (colors.get ⟨i % colors.length, Nat.mod_lt i (by decide)⟩) }
  else
    { text := char.toString }

/-- The character-cycling paragraph: one run per character of the
source string. -/
def para2 : Block :=
  { kind := BlockKind.paragraph, alignment := some WD_ALIGN_PARAGRAPH.LEFT,
    runs := text.toList.enum.map fun ic => para2Run text.length ic.1 ic.2 }

/-- Section 5, punctuation-coloring paragraph runs. -/
def run_word1 : Run := { text := "单词", color := some ⟨0x00, 0x00, 0xFF⟩ }

def run_punct1 : Run := { text := "，", color := some ⟨0xFF, 0x00, 0x00⟩ }

def run_word2 : Run := { text := "标点", color := some ⟨0x00, 0xFF, 0x00⟩ }

def run_punct2 : Run := { text := "。", color := some ⟨0xFF, 0x00, 0xFF⟩ }

/-- The punctuation-specific coloring paragraph. -/
def para3 : Block :=
  { kind := BlockKind.paragraph, alignment := some WD_ALIGN_PARAGRAPH.LEFT,
    runs := [run_word1, run_punct1, run_word2, run_punct2] }

/-- Section 6, underline-alternation paragraph runs. The middle run
run_normal is added with no attribute assignment at all. -/
def run_under1 : Run :=
  { text := "下划线", color := some ⟨0xFF, 0x00, 0x00⟩, underline := some true }

def run_normal : Run := { text := " 普通文字 " }

def run_under2 : Run :=
  { text := "下划线", color := some ⟨0x00, 0x00, 0xFF⟩, underline := some true }

/-- The underline-alternation paragraph. -/
def para4 : Block :=
  { kind := BlockKind.paragraph, alignment := some WD_ALIGN_PARAGRAPH.LEFT,
    runs := [run_under1, run_normal, run_under2] }

/-- Section 7, size and color pairing runs: sizes are in points (Pt).
The middle run run_normal2 is added with no attribute assignment. -/
def run_size1 : Run :=
  { text := "小号", color := some ⟨0xFF, 0x00, 0x00⟩, size := some 10 }

def run_normal2 : Run := { text := " 正常 " }

def run_size2 : Run :=
  { text := "大号", color := some ⟨0x00, 0x00, 0xFF⟩, size := some 16 }

/-- The size and color pairing paragraph. -/
def para5 : Block :=
  { kind := BlockKind.paragraph, alignment := some WD_ALIGN_PARAGRAPH.LEFT,
    runs := [run_size1, run_normal2, run_size2] }

/-- Section 8, centered paragraph runs. -/
def run_center1 : Run :=
  { text := "居中", color := some ⟨0xFF, 0x00, 0x00⟩, bold := some true }

def run_center2 : Run := { text := " 文字 ", color := some ⟨0x00, 0x00, 0x00⟩ }

def run_center3 : Run :=
  { text := "测试", color := some ⟨0x00, 0xFF, 0x00⟩, italic := some true }

/-- The alignment and color pairing paragraph, centered. -/
def para6 : Block :=
  { kind := BlockKind.paragraph, alignment := some WD_ALIGN_PARAGRAPH.CENTER,
    runs := [run_center1, run_center2, run_center3] }

/-- Section 9: the table of (text, color, bold, italic) tuples of the
fully combinatorial paragraph. -/
def complex_texts : List (String × RGBColor × Bool × Bool) :=
  [("这是", ⟨0x00, 0x00, 0x00⟩, false, false),
   ("一个", ⟨0xFF, 0x00, 0x00⟩, true, false),
   ("复杂", ⟨0x00, 0xFF, 0x00⟩, false, true),
   ("的", ⟨0x00, 0x00, 0x00⟩, false, false),
   ("格式", ⟨0x00, 0x00, 0xFF⟩, true, true),
   ("测试", ⟨0xFF, 0x00, 0xFF⟩, false, false),
   ("段落", ⟨0xFF, 0x7F, 0x00⟩, true, true),
   ("。", ⟨0x00, 0x00, 0x00⟩, false, false)]

/-- The fully combinatorial paragraph: each tuple becomes a run whose
color, bold, and italic fields are all assigned. -/
def para7 : Block :=
  { kind := BlockKind.paragraph, alignment := some WD_ALIGN_PARAGRAPH.LEFT,
    runs := complex_texts.map fun t =>
      { text := t.1, color := some t.2.1, bold := some t.2.2.1,
        italic := some t.2.2.2 } }

/-- Section 10: the table of (text, color) pairs of the
special-character paragraph. -/
def special_chars : List (String × RGBColor) :=
  [("特殊", ⟨0xFF, 0x00, 0x00⟩),
   ("字符", ⟨0x00, 0xFF, 0x00⟩),
   ("：", ⟨0x00, 0x00, 0xFF⟩),
   ("@", ⟨0xFF, 0x00, 0xFF⟩),
   ("#", ⟨0xFF, 0x7F, 0x00⟩),
   ("$", ⟨0x00, 0xFF, 0xFF⟩),
   ("%", ⟨0xFF, 0xFF, 0x00⟩),
   ("&", ⟨0x00, 0x00, 0xFF⟩),
   ("*", ⟨0xFF, 0x00, 0x00⟩)]

/-- The special-character coloring paragraph: each pair becomes a run
with an assigned color. -/
def para8 : Block :=
  { kind := BlockKind.paragraph, alignment := some WD_ALIGN_PARAGRAPH.LEFT,
    runs := special_chars.map fun t => { text := t.1, color := some t.2 } }

/-- Appending one finished block to the document under construction, as
each add_heading or add_paragraph section of the script does. -/
def add_block (d : List Block) (b : Block) : List Block := d ++ [b]

/-- The whole script run top to bottom: starting from the empty
document, every section appends its block in source order. The script
takes no input, which the Unit argument records. -/
def buildDocument (_u : Unit) : List Block :=
  add_block (add_block (add_block (add_block (add_block (add_block
    (add_block (add_block (add_block (add_block [] title) subtitle)
      para1) para2) para3) para4) para5) para6) para7) para8

/-- All runs of a document, in block order then run order. -/
def allRuns (d : List Block) : List Run := d.flatMap Block.runs

/-- The visible text of a block: its run texts concatenated in order. -/
def paragraphText (b : Block) : String :=
  b.runs.foldl (fun s r => s ++ r.text) ""

/-- The run at block index i, run index j, when both exist. -/
def runAt (d : List Block) (i j : Nat) : Option Run :=
  (d.get? i).bind fun b => b.runs.get? j

/-- The (block index, run index) positions of every run satisfying a
predicate, in document order. -/
def attrPositions (d : List Block) (p : Run → Bool) : List (Nat × Nat) :=
  d.enum.flatMap fun bi =>
    bi.2.runs.enum.flatMap fun rj =>
      if p rj.2 then [(bi.1, rj.1)] else []

/-- Modelled from the spec: the assembly-time rejection of a run with
empty text. The source script contains no such check; the failure
policy exists only in the design description, which says a pattern
producing an empty-text run is rejected before assembly. -/
def checkRun (r : Run) : Except String Run :=
  if r.text = "" then Except.error "empty run text" else Except.ok r

/-- Modelled from the spec: running the empty-text rejection check over
a list of runs, failing on the first empty one. -/
def checkRuns (rs : List Run) : Except String (List Run) :=
  rs.mapM checkRun

/-- Claim C1, counterexample: the middle run of the
underline-alternation paragraph (run_normal, block 5 run 1) carries no
explicit color, boldness, or italics at all, so it is false that every
run of the assembled document has color, boldness, and italics
explicitly set. -/
theorem claimC1_counterexample :
    runAt (buildDocument ()) 5 1 =
      some { text := " 普通文字 ", color := none, bold := none,
             italic := none, underline := none, size := none } ∧
    ¬ ∀ r ∈ allRuns (buildDocument ()),
        r.color.isSome ∧ r.bold.isSome ∧ r.italic.isSome := by
  exact ⟨rfl, by decide⟩

/-- Claim C1, amended: attributes are explicit exactly where the
patterns assign them. Exactly three runs carry no explicit color, at
positions (3,4), (5,1) and (6,1): the final character-cycling run, the
middle run of the underline paragraph, and the middle run of the size
paragraph. Boldness and italics are explicit exactly on the runs their
patterns style, and underline and size are explicit exactly on the runs
whose patterns specify them. -/
theorem claimC1_explicitness :
    attrPositions (buildDocument ()) (fun r => r.color.isNone) =
      [(3, 4), (5, 1), (6, 1)] ∧
    attrPositions (buildDocument ()) (fun r => r.bold.isSome) =
      [(2, 1), (2, 5), (7, 0), (8, 0), (8, 1), (8, 2), (8, 3), (8, 4),
       (8, 5), (8, 6), (8, 7)] ∧
    attrPositions (buildDocument ()) (fun r => r.italic.isSome) =
      [(2, 3), (2, 5), (7, 2), (8, 0), (8, 1), (8, 2), (8, 3), (8, 4),
       (8, 5), (8, 6), (8, 7)] ∧
    attrPositions (buildDocument ()) (fun r => r.underline.isSome) =
      [(5, 0), (5, 2)] ∧
    attrPositions (buildDocument ()) (fun r => r.size.isSome) =
      [(6, 0), (6, 2)] := by
  decide

/-- Claim C2, counterexample: the character-cycling paragraph has
exactly 5 runs, its 5th run carries no explicit color, and there is no
6th run, refuting the claim that the 5th and 6th characters carry blue
and indigo. -/
theorem claimC2_counterexample :
    ((buildDocument ()).get? 3).map (fun b => b.runs.length) = some 5 ∧
    runAt (buildDocument ()) 3 5 = none ∧
    (runAt (buildDocument ()) 3 4).bind Run.color = none ∧
    ¬ ((runAt (buildDocument ()) 3 4).bind Run.color =
         some ⟨0x00, 0x00, 0xFF⟩ ∧
       (runAt (buildDocument ()) 3 5).bind Run.color =
         some ⟨0x4B, 0x00, 0x82⟩) := by
  exact ⟨rfl, rfl, rfl, by decide⟩

/-- Claim C2, amended: the 1st through 4th characters of the
character-cycling paragraph carry the explicit colors red, orange,
yellow, green, each taken from the 7-color palette at its position
modulo the palette length, and the final (5th) character carries no
explicit color; the string has no 6th character. -/
theorem claimC2_palette :
    (runAt (buildDocument ()) 3 0).bind Run.color = some ⟨0xFF, 0x00, 0x00⟩ ∧
    (runAt (buildDocument ()) 3 1).bind Run.color = some ⟨0xFF, 0x7F, 0x00⟩ ∧
    (runAt (buildDocument ()) 3 2).bind Run.color = some ⟨0xFF, 0xFF, 0x00⟩ ∧
    (runAt (buildDocument ()) 3 3).bind Run.color = some ⟨0x00, 0xFF, 0x00⟩ ∧
    (runAt (buildDocument ()) 3 0).bind Run.color = colors.get? (0 % colors.length) ∧
    (runAt (buildDocument ()) 3 1).bind Run.color = colors.get? (1 % colors.length) ∧
    (runAt (buildDocument ()) 3 2).bind Run.color = colors.get? (2 % colors.length) ∧
    (runAt (buildDocument ()) 3 3).bind Run.color = colors.get? (3 % colors.length) ∧
    (runAt (buildDocument ()) 3 4).bind Run.color = none ∧
    runAt (buildDocument ()) 3 5 = none := by
  decide

/-- Claim C3: concatenating the run texts of each block in run order
yields exactly its intended literal string; in particular the
character-cycling paragraph (block 3) concatenates to the fixed source
string. -/
theorem claimC3_paragraphTexts :
    (buildDocument ()).map paragraphText =
      ["复杂格式测试文档", "格式保留测试",
       "这是蓝色的文字，绿色的文字，红色的文字。", "彩虹文字：",
       "单词，标点。", "下划线 普通文字 下划线", "小号 正常 大号",
       "居中 文字 测试", "这是一个复杂的格式测试段落。",
       "特殊字符：@#$%&*"] ∧
    ((buildDocument ()).map paragraphText).get? 3 = some text := by
  exact ⟨rfl, rfl⟩

/-- Claim C4: the assembled document is exactly the ten catalog blocks
in fixed order, each appearing exactly once: a level-0 title heading
and a level-1 subtitle heading, both with an explicit run color,
followed by the eight pattern paragraphs in catalog sequence. -/
theorem claimC4_catalogOrder :
    buildDocument () =
      [title, subtitle, para1, para2, para3, para4, para5, para6, para7,
       para8] ∧
    title.kind = BlockKind.heading 0 ∧
    subtitle.kind = BlockKind.heading 1 ∧
    title.runs.map Run.color = [some ⟨0x1a, 0x1a, 0x1a⟩] ∧
    subtitle.runs.map Run.color = [some ⟨0xFF, 0x00, 0x00⟩] ∧
    (buildDocument ()).map Block.kind =
      [BlockKind.heading 0, BlockKind.heading 1, BlockKind.paragraph,
       BlockKind.paragraph, BlockKind.paragraph, BlockKind.paragraph,
       BlockKind.paragraph, BlockKind.paragraph, BlockKind.paragraph,
       BlockKind.paragraph] ∧
    (buildDocument ()).count para1 = 1 ∧
    (buildDocument ()).count para2 = 1 ∧
    (buildDocument ()).count para3 = 1 ∧
    (buildDocument ()).count para4 = 1 ∧
    (buildDocument ()).count para5 = 1 ∧
    (buildDocument ()).count para6 = 1 ∧
    (buildDocument ()).count para7 = 1 ∧
    (buildDocument ()).count para8 = 1 := by
  decide

/-- Claim C5: the fully combinatorial paragraph contains, for each of
the four (bold, italic) boolean combinations, at least one run with
that combination explicitly set alongside an explicit color. -/
theorem claimC5_boldItalicCombos :
    (∃ r ∈ para7.runs,
      r.bold = some false ∧ r.italic = some false ∧ r.color.isSome) ∧
    (∃ r ∈ para7.runs,
      r.bold = some true ∧ r.italic = some false ∧ r.color.isSome) ∧
    (∃ r ∈ para7.runs,
      r.bold = some false ∧ r.italic = some true ∧ r.color.isSome) ∧
    (∃ r ∈ para7.runs,
      r.bold = some true ∧ r.italic = some true ∧ r.color.isSome) := by
  decide

/-- Claim C6: document construction is deterministic: any two
invocations of the build operation, which takes no input beyond its
unit argument, produce structurally identical documents. -/
theorem claimC6_deterministic :
    ∀ u v : Unit, buildDocument u = buildDocument v := by
  intro u v
  rfl

/-- Witness for claim C6 at the concrete invocation pair. -/
theorem claimC6_deterministic_witness :
    buildDocument () = buildDocument () :=
  claimC6_deterministic () ()

/-- Claim C7: every run of the assembled document has non-empty text,
so the empty-text rejection check (modelled from the spec) accepts the
whole document unchanged and its rejection branch is unreachable. -/
theorem claimC7_noEmptyRuns :
    (∀ r ∈ allRuns (buildDocument ()), r.text ≠ "") ∧
    checkRuns (allRuns (buildDocument ())) =
      Except.ok (allRuns (buildDocument ())) := by
  exact ⟨by decide, rfl⟩

/-- Claim C8: in the underline-alternation paragraph the first and
third runs are underlined with distinct explicit colors (red and blue)
and the middle run is plain: no underline, no color, no boldness, no
italics. -/
theorem claimC8_underlineAlternation :
    para4.runs.map Run.underline = [some true, none, some true] ∧
    para4.runs.map Run.color =
      [some ⟨0xFF, 0x00, 0x00⟩, none, some ⟨0x00, 0x00, 0xFF⟩] ∧
    para4.runs.map Run.bold = [none, none, none] ∧
    para4.runs.map Run.italic = [none, none, none] := by
  decide

/-- Claim C9: the alignment-pairing paragraph is centered, its runs
carry pairwise-distinct explicit colors, at least one run is bold and
at least one is italic, and assigning a block alignment never changes
any run attribute. -/
theorem claimC9_alignmentColorPairing :
    para6.alignment = some WD_ALIGN_PARAGRAPH.CENTER ∧
    (para6.runs.map Run.color).Nodup ∧
    (∀ r ∈ para6.runs, r.color.isSome) ∧
    (∃ r ∈ para6.runs, r.bold = some true) ∧
    (∃ r ∈ para6.runs, r.italic = some true) ∧
    (∀ (b : Block) (a : WD_ALIGN_PARAGRAPH),
      (setAlignment b a).runs = b.runs) := by
  refine ⟨by decide, by decide, by decide, by decide, by decide, ?_⟩
  intro b a
  rfl

/-- Claim C10: the character-cycling source string has exactly 5
characters, the paragraph has 5 runs whose colors are the first four
palette entries followed by none, the blue, indigo, and violet entries
never appear, and within the string length the modulo-7 index never
wraps. -/
theorem claimC10_paletteTruncation :
    text.length = 5 ∧
    para2.runs.length = 5 ∧
    para2.runs.map Run.color =
      [some ⟨0xFF, 0x00, 0x00⟩, some ⟨0xFF, 0x7F, 0x00⟩,
       some ⟨0xFF, 0xFF, 0x00⟩, some ⟨0x00, 0xFF, 0x00⟩, none] ∧
    colors.take 4 =
      [⟨0xFF, 0x00, 0x00⟩, ⟨0xFF, 0x7F, 0x00⟩, ⟨0xFF, 0xFF, 0x00⟩,
       ⟨0x00, 0xFF, 0x00⟩] ∧
    (∀ r ∈ para2.runs,
      r.color ≠ some ⟨0x00, 0x00, 0xFF⟩ ∧
      r.color ≠ some ⟨0x4B, 0x00, 0x82⟩ ∧
      r.color ≠ some ⟨0x94, 0x00, 0xD3⟩) ∧
    ((List.range text.length).all fun i => i % colors.length == i) = true := by
  decide

end GenerateComplexTemplate
